import Mathlib

/-!
Verification development for the ReqGen AI backend
(src/huggingface-spaces/app.py).

The file gives a shallow embedding of the two operations with decision
logic, `summarize_text` (lines 82-120) and `generate_document`
(lines 165-233), and proves theorems about the length/effort parameters
handed to the external summarization model, the short-input validation,
metadata handling and the document templating.  External collaborators
(the T5 model, `json.loads`, `datetime.now`) are passed in explicitly:
the model as a function from the generation request to the decoded
summary, the parsed metadata as the outcome of the `json.loads` call,
and the clock as the three `strftime` renderings the code uses.
-/

/-- Python whitespace, as used by `str.strip` and `str.split` on ASCII
text: space and the control characters 9-13 (tab, newline, vertical
tab, form feed, carriage return). -/
def isPyWs (c : Char) : Bool :=
  c.toNat = 32 || (9 ≤ c.toNat && c.toNat ≤ 13)

/-- Python `text.strip()` with no arguments: drop leading and trailing
whitespace. -/
def pyStrip (s : String) : String :=
  ⟨((s.data.dropWhile isPyWs).reverse.dropWhile isPyWs).reverse⟩

/-- Helper for `pySplitWs`: walk the characters, accumulating the
current word in reverse. -/
def splitWsAux : List Char → List Char → List String
  | [], acc => if acc = [] then [] else [⟨acc.reverse⟩]
  | c :: cs, acc =>
      if isPyWs c then
        if acc = [] then splitWsAux cs []
        else ⟨acc.reverse⟩ :: splitWsAux cs []
      else splitWsAux cs (c :: acc)

/-- Python `text.split()` with no arguments: split on runs of
whitespace, discarding empty pieces. -/
def pySplitWs (s : String) : List String :=
  splitWsAux s.data []

/-- Python `text[:n]`: the first `n` characters (code points) of the
text. -/
def pyTake (s : String) (n : Nat) : String :=
  ⟨s.data.take n⟩

/-- The generation request `summarize_text` issues to the external T5
summarization model (app.py lines 91-106): the prompt handed to
`tokenizer.encode` together with its `max_length`/`truncation` arguments,
and the keyword arguments of `model.generate`.  The float
`length_penalty=2.0` is modelled by the exact rational 2. -/
structure GenCall where
  prompt : String
  enc_max_length : Nat
  truncation : Bool
  max_length : Nat
  min_length : Nat
  num_beams : Nat
  length_penalty : Rat
  early_stopping : Bool
  deriving DecidableEq

/-- Outcome of `summarize_text`.  `errorTooShort` is the JSON
`{"error": "Text too short to summarize"}` returned by line 86 without
touching the model; `invoked` records the single generation call made
and the fields of the success JSON of lines 110-117 (the summary string
returned by the model, both word counts, and the echoed strategy and
quality labels). -/
inductive SummOutcome where
  | errorTooShort
  | invoked (call : GenCall) (summary : String)
      (word_count summary_word_count : Nat) (strategy quality : String)
  deriving DecidableEq

/-- Shallow embedding of `summarize_text` (app.py lines 82-120).  The
external model pipeline (encode, generate, decode) is the function
`model` from the generation request to the decoded summary.  In the
source the defaults are `strategy="balanced"`, `quality="medium"`; both
arguments are explicit here. -/
def summarize_text (model : GenCall → String)
    (text strategy quality : String) : SummOutcome :=
  if text = "" ∨ (pyStrip text).length < 10 then
    SummOutcome.errorTooShort
  else
    let call : GenCall :=
      { prompt := "summarize: " ++ text
        enc_max_length := 512
        truncation := true
        max_length := 256
        min_length := 50
        num_beams := 4
        length_penalty := 2
        early_stopping := true }
    let summary := model call
    SummOutcome.invoked call summary (pySplitWs text).length
      (pySplitWs summary).length strategy quality

/-- The generation call recorded in an outcome, when the model was
invoked. -/
def callOf : SummOutcome → Option GenCall
  | SummOutcome.errorTooShort => none
  | SummOutcome.invoked call _ _ _ _ _ => some call

/-- Replace the echoed strategy field of an outcome, leaving everything
else unchanged. -/
def setStrategy (s : String) : SummOutcome → SummOutcome
  | SummOutcome.errorTooShort => SummOutcome.errorTooShort
  | SummOutcome.invoked call summary wc swc _ q =>
      SummOutcome.invoked call summary wc swc s q

/-- The `min_length` bound of the generation call of an outcome
(0 when no call was made). -/
def minLenOf : SummOutcome → Nat
  | SummOutcome.errorTooShort => 0
  | SummOutcome.invoked call _ _ _ _ _ => call.min_length

/-- The `max_length` bound of the generation call of an outcome
(0 when no call was made). -/
def maxLenOf : SummOutcome → Nat
  | SummOutcome.errorTooShort => 0
  | SummOutcome.invoked call _ _ _ _ _ => call.max_length

/-- Round `num / den` to the nearest integer with ties to even, as
Python `round` does. -/
def roundNearest (num den : Nat) : Nat :=
  let q := num / den
  let r := num % den
  if 2 * r < den then q
  else if den < 2 * r then q + 1
  else if q % 2 = 0 then q else q + 1

/-- The pair of generation bounds of the spec's length policy. -/
structure LengthBounds where
  max_length : Nat
  min_length : Nat
  deriving DecidableEq

/-- Modelled from the spec: `compute_bounds`, the length policy contract
of spec sections 4.1 and 6.  The REST-backend file implementing it is
not present under src/ (only its tests are), so it is taken from the
spec's words: `max_length = clamp(round(n * 0.5), 60, 300)` and
`min_length = clamp(round(n * 0.15), 20, 50)` for a word count `n`. -/
def compute_bounds (n : Nat) : LengthBounds :=
  { max_length := max 60 (min 300 (roundNearest n 2))
    min_length := max 20 (min 50 (roundNearest (3 * n) 20)) }

/-- A concrete stand-in for the external summarization model, used to
instantiate theorems at specific inputs. -/
def constModel : GenCall → String :=
  fun _ => "a concise summary of the input requirements"

/-- The generation call issued for the input text
"Build a login page now" (any strategy and quality). -/
def summCall0 : GenCall :=
  { prompt := "summarize: Build a login page now"
    enc_max_length := 512
    truncation := true
    max_length := 256
    min_length := 50
    num_beams := 4
    length_penalty := 2
    early_stopping := true }

/-- C1 counterexample: on the one-word input "requirements" the code
passes `max_length = 256` to the model, while the claimed formula
`clamp(round(n * 0.5), 60, 300)` gives 60 at `n = 1`. -/
theorem C1_counterexample :
    (callOf (summarize_text constModel "requirements" "balanced" "medium")).map
      (fun call => call.max_length) = some 256 ∧
    (pySplitWs "requirements").length = 1 ∧
    (compute_bounds 1).max_length = 60 ∧ (256 : Nat) ≠ 60 := by
  refine ⟨rfl, by decide, by decide, by decide⟩

/-- C1 (amended): the `max_length` generation bound passed to the
summarization model is the constant 256, for every input text (and in
particular for a 1000-word text it is 256, not 300). -/
theorem C1_max_length_constant (model : GenCall → String)
    (text strategy quality : String) (call : GenCall)
    (h : callOf (summarize_text model text strategy quality) = some call) :
    call.max_length = 256 := by
  unfold summarize_text at h
  split at h
  · exact absurd h (by simp [callOf])
  · simp only [callOf, Option.some.injEq] at h
    rw [← h]

/-- C1 witness: the amended theorem applied at a concrete input. -/
theorem C1_witness :
    callOf (summarize_text constModel "Build a login page now" "balanced" "medium") =
      some summCall0 ∧ summCall0.max_length = 256 :=
  ⟨rfl, C1_max_length_constant constModel "Build a login page now" "balanced" "medium"
    summCall0 rfl⟩

/-- C2 counterexample: with quality "medium" (a value other than
"high") the code passes `num_beams = 4` to the model, not 2 as the
claim states for non-high quality. -/
theorem C2_counterexample :
    (callOf (summarize_text constModel "Build a login page now" "balanced" "medium")).map
      (fun call => call.num_beams) = some 4 ∧ (4 : Nat) ≠ 2 := by
  refine ⟨rfl, by decide⟩

/-- C2 (amended): the beam count passed to the summarization model is 4
for every quality value, "high" or not. -/
theorem C2_num_beams_constant (model : GenCall → String)
    (text strategy quality : String) (call : GenCall)
    (h : callOf (summarize_text model text strategy quality) = some call) :
    call.num_beams = 4 := by
  unfold summarize_text at h
  split at h
  · exact absurd h (by simp [callOf])
  · simp only [callOf, Option.some.injEq] at h
    rw [← h]

/-- C2 witness: the amended theorem applied at a concrete input with a
non-"high" quality. -/
theorem C2_witness :
    callOf (summarize_text constModel "Build a login page now" "balanced" "low") =
      some summCall0 ∧ summCall0.num_beams = 4 :=
  ⟨rfl, C2_num_beams_constant constModel "Build a login page now" "balanced" "low"
    summCall0 rfl⟩

/-- C3 counterexample: on the one-word input "requirements" the code
passes `min_length = 50` to the model, while the claimed formula
`clamp(round(n * 0.15), 20, 50)` gives 20 at `n = 1`. -/
theorem C3_counterexample :
    (callOf (summarize_text constModel "requirements" "balanced" "medium")).map
      (fun call => call.min_length) = some 50 ∧
    (pySplitWs "requirements").length = 1 ∧
    (compute_bounds 1).min_length = 20 ∧ (50 : Nat) ≠ 20 := by
  refine ⟨rfl, by decide, by decide, by decide⟩

/-- C3 (amended): the `min_length` generation bound passed to the
summarization model is the constant 50, for every input text (which
agrees with the claimed formula at `n = 400` but not in general). -/
theorem C3_min_length_constant (model : GenCall → String)
    (text strategy quality : String) (call : GenCall)
    (h : callOf (summarize_text model text strategy quality) = some call) :
    call.min_length = 50 := by
  unfold summarize_text at h
  split at h
  · exact absurd h (by simp [callOf])
  · simp only [callOf, Option.some.injEq] at h
    rw [← h]

/-- C3 witness: the amended theorem applied at a concrete input. -/
theorem C3_witness :
    callOf (summarize_text constModel "Build a login page now" "balanced" "medium") =
      some summCall0 ∧ summCall0.min_length = 50 :=
  ⟨rfl, C3_min_length_constant constModel "Build a login page now" "balanced" "medium"
    summCall0 rfl⟩

/-- C4: every input whose whitespace-trimmed length is below 10
characters (the empty input included) is answered with the
"Text too short to summarize" error, and no generation call is made:
`errorTooShort` records no call and carries no summary. -/
theorem C4_short_input_rejected (model : GenCall → String)
    (text strategy quality : String) (h : (pyStrip text).length < 10) :
    summarize_text model text strategy quality = SummOutcome.errorTooShort := by
  unfold summarize_text
  rw [if_pos (Or.inr h)]

/-- C4 witness: the theorem applied to the two-character input "hi". -/
theorem C4_witness :
    (pyStrip "hi").length < 10 ∧
    summarize_text constModel "hi" "balanced" "high" = SummOutcome.errorTooShort :=
  ⟨by decide, C4_short_input_rejected constModel "hi" "balanced" "high" (by decide)⟩

/-- C6: the computed generation bounds always satisfy
`min_length <= max_length`: for the spec's `compute_bounds` at every
word count `n >= 1`, and for the constant bounds `summarize_text`
passes to the model (50 and 256; vacuously 0 and 0 when no call is
made). -/
theorem C6_min_le_max :
    (∀ n : Nat, 1 ≤ n →
      (compute_bounds n).min_length ≤ (compute_bounds n).max_length) ∧
    ∀ (model : GenCall → String) (text strategy quality : String),
      minLenOf (summarize_text model text strategy quality) ≤
        maxLenOf (summarize_text model text strategy quality) := by
  constructor
  · intro n hn
    simp only [compute_bounds]
    omega
  · intro model text strategy quality
    unfold summarize_text
    split
    · simp [minLenOf, maxLenOf]
    · simp [minLenOf, maxLenOf]

/-- C6 witness: the theorem applied at word count 40 and at a concrete
summarization input. -/
theorem C6_witness :
    (compute_bounds 40).min_length ≤ (compute_bounds 40).max_length ∧
    minLenOf (summarize_text constModel "Build a login page now" "balanced" "high") ≤
      maxLenOf (summarize_text constModel "Build a login page now" "balanced" "high") :=
  ⟨C6_min_le_max.1 40 (by decide),
   C6_min_le_max.2 constModel "Build a login page now" "balanced" "high"⟩

/-- C7: the strategy argument is echoed back unchanged and nothing
else depends on it: the outcome for strategy `s1` is the outcome for
any other strategy `s2` with only the echoed strategy field replaced
by `s1`. -/
theorem C7_strategy_non_interference (model : GenCall → String)
    (text quality s1 s2 : String) :
    summarize_text model text s1 quality =
      setStrategy s1 (summarize_text model text s2 quality) := by
  unfold summarize_text
  split
  · rfl
  · rfl

/-- Values produced by the external `json.loads` call on the
`metadata_json` argument.  JSON numbers are modelled as integers (float
metadata plays no role in any claim); string escaping is not modelled. -/
inductive JsonValue where
  | str (s : String)
  | int (n : Int)
  | bool (b : Bool)
  | null
  | arr (elems : List JsonValue)
  | obj (fields : List (String × JsonValue))

/-- The single-quote character that Python `repr` wraps strings in. -/
def singleQuote : String :=
  String.singleton (Char.ofNat 39)

mutual

/-- Python `repr` of a `json.loads` value (string escaping not
modelled). -/
def pyRepr : JsonValue → String
  | JsonValue.str s => singleQuote ++ s ++ singleQuote
  | JsonValue.int n => toString n
  | JsonValue.bool b => if b then "True" else "False"
  | JsonValue.null => "None"
  | JsonValue.arr xs => "[" ++ pyReprList xs ++ "]"
  | JsonValue.obj fs => "\x7b" ++ pyReprFields fs ++ "\x7d"

/-- Comma-separated `repr`s of list elements. -/
def pyReprList : List JsonValue → String
  | [] => ""
  | [x] => pyRepr x
  | x :: y :: xs => pyRepr x ++ ", " ++ pyReprList (y :: xs)

/-- Comma-separated `key: value` `repr`s of dict entries. -/
def pyReprFields : List (String × JsonValue) → String
  | [] => ""
  | [(k, v)] => singleQuote ++ k ++ singleQuote ++ ": " ++ pyRepr v
  | (k, v) :: f :: fs =>
      singleQuote ++ k ++ singleQuote ++ ": " ++ pyRepr v ++ ", " ++
        pyReprFields (f :: fs)

end

/-- Python `str` of a `json.loads` value, as interpolated by an
f-string. -/
def pyStr : JsonValue → String
  | JsonValue.str s => s
  | v => pyRepr v

/-- The `metadata_json` argument as seen through the external
`json.loads` call of line 171: the falsy empty string (no parse is
attempted and the metadata dict is empty), a string on which
`json.loads` raises, or a successfully parsed value. -/
inductive JsonInput where
  | empty
  | malformed
  | parsed (v : JsonValue)

/-- Python `dict.get key default` on a dict built by `json.loads`
(duplicate keys in the JSON text: the last occurrence wins). -/
def dictGet (fields : List (String × JsonValue)) (k : String)
    (d : JsonValue) : JsonValue :=
  match fields.reverse.find? (fun p => p.1 == k) with
  | some p => p.2
  | none => d

/-- Lines 171-173 of app.py together with the exceptions the metadata
argument can trigger: `json.loads` raising on a malformed string,
`.get` raising `AttributeError` on a parse result that is not a dict,
and `project_name.replace` (line 222) raising on a non-string
`project_name` value.  Returns the project name (necessarily a genuine
string) and the rendered company name, or `none` exactly when the call
ends in the `except` branch on account of the metadata argument. -/
def metaNames : JsonInput → Option (String × String)
  | JsonInput.empty => some ("Project", "Company")
  | JsonInput.malformed => none
  | JsonInput.parsed (JsonValue.obj fields) =>
      match dictGet fields "project_name" (JsonValue.str "Project") with
      | JsonValue.str p =>
          some (p, pyStr (dictGet fields "company_name" (JsonValue.str "Company")))
      | _ => none
  | JsonInput.parsed _ => none

/-- The `datetime.now().strftime` renderings used by
`generate_document`, passed in explicitly: the `%Y-%m-%d` date, the
compact `%Y%m%d%H%M%S` stamp of the PO number, and the underscored
`%Y%m%d_%H%M%S` stamp of the filename. -/
structure NowFormats where
  date : String
  compact : String
  underscored : String
  deriving DecidableEq

/-- Result of `generate_document`: the explicit "No text provided"
error JSON of line 169, the `except`-branch error JSON (whose message
`str(e)` comes from the raised exception), or the success JSON of
lines 224-230. -/
inductive GenResult where
  | error (msg : String)
  | errorExternal
  | success (document : String) (document_type : String)
      (filename : String) (word_count : Nat)
  deriving DecidableEq

/-- BRD template, part before the project name (lines 176-179). -/
def brdLit1 : String :=
  "\nBUSINESS REQUIREMENTS DOCUMENT (BRD)\n=====================================\nProject: "

/-- BRD template, between project name and company name (line 180). -/
def brdLit2 : String := "\nCompany: "

/-- BRD template, between company name and date (line 181). -/
def brdLit3 : String := "\nDate: "

/-- BRD template, between date and the truncated text (lines 182-183). -/
def brdLit4 : String := "\n\n1. EXECUTIVE SUMMARY\n"

/-- BRD template, between the truncated text and the full text
(lines 184-195). -/
def brdLit5 : String :=
  "...\n\n2. BUSINESS OBJECTIVES\nBased on the requirements provided, the key objectives are:\n- Implement the described functionality\n- Ensure user satisfaction\n- Meet business goals\n\n3. SCOPE\nThis document covers the requirements as described in the input.\n\n4. REQUIREMENTS\n"

/-- BRD template, after the full text (lines 197-205). -/
def brdLit6 : String :=
  "\n\n5. TIMELINE\nTo be determined based on complexity analysis.\n\n6. STAKEHOLDERS\n- Project Manager\n- Development Team\n- End Users\n"

/-- PO template, part before the PO-number stamp (lines 207-210). -/
def poLit1 : String :=
  "\nPURCHASE ORDER\n===============\nPO Number: PO-"

/-- PO template, between the PO-number stamp and the date (line 211). -/
def poLit2 : String := "\nDate: "

/-- PO template, between the date and the company name (line 212). -/
def poLit3 : String := "\nCompany: "

/-- PO template, between the company name and the text (lines 213-214). -/
def poLit4 : String := "\n\nITEMS/SERVICES:\n"

/-- PO template, after the text (lines 216-220). -/
def poLit5 : String :=
  "\n\nTERMS AND CONDITIONS:\n- Standard payment terms apply\n- Delivery as per agreement\n"

/-- The BRD f-string of app.py lines 176-205 with the interpolated
values as arguments. -/
def brdDoc (text project_name company_name date : String) : String :=
  brdLit1 ++ project_name ++ brdLit2 ++ company_name ++ brdLit3 ++ date ++
    brdLit4 ++ pyTake text 500 ++ brdLit5 ++ text ++ brdLit6

/-- The purchase-order f-string of app.py lines 207-220 with the
interpolated values as arguments. -/
def poDoc (text company_name compact date : String) : String :=
  poLit1 ++ compact ++ poLit2 ++ date ++ poLit3 ++ company_name ++
    poLit4 ++ text ++ poLit5

/-- Python `s.replace(" ", "_")` as used on line 222: a
single-character pattern, hence a character-wise map. -/
def replaceSpaces (s : String) : String :=
  ⟨s.data.map (fun ch => if ch = ' ' then '_' else ch)⟩

/-- Shallow embedding of `generate_document` (app.py lines 165-233). -/
def generate_document (text document_type : String)
    (metadata_json : JsonInput) (now : NowFormats) : GenResult :=
  if text = "" then GenResult.error "No text provided"
  else
    match metaNames metadata_json with
    | none => GenResult.errorExternal
    | some (project_name, company_name) =>
        let doc :=
          if document_type = "brd" then
            brdDoc text project_name company_name now.date
          else
            poDoc text company_name now.compact now.date
        let filename :=
          document_type ++ "_" ++ replaceSpaces project_name ++ "_" ++
            now.underscored ++ ".txt"
        GenResult.success doc document_type filename (pySplitWs doc).length

/-- The document string of a result, when one was produced. -/
def docOf : GenResult → Option String
  | GenResult.success doc _ _ _ => some doc
  | _ => none

/-- The timestamp strings embedded in the generated document, in order
of appearance: the BRD embeds the date; the purchase order embeds the
compact PO-number stamp and then the date. -/
def docStamps (document_type : String) (now : NowFormats) : List String :=
  if document_type = "brd" then [now.date] else [now.compact, now.date]

/-- The timestamp-independent segments of the generated document, in
order, with one gap between consecutive segments for each embedded
timestamp. -/
def docSegs (text project_name company_name document_type : String) :
    List String :=
  if document_type = "brd" then
    [brdLit1 ++ project_name ++ brdLit2 ++ company_name ++ brdLit3,
     brdLit4 ++ pyTake text 500 ++ brdLit5 ++ text ++ brdLit6]
  else
    [poLit1, poLit2,
     poLit3 ++ company_name ++ poLit4 ++ text ++ poLit5]

/-- Interleave segments with the strings that fill the gaps between
them. -/
def weave : List String → List String → String
  | [], _ => ""
  | [s], _ => s
  | s :: ss, [] => s ++ weave ss []
  | s :: s2 :: ss, t :: ts => s ++ t ++ weave (s2 :: ss) ts

/-- String concatenation is associative. -/
theorem strAppendAssoc : ∀ a b c : String, a ++ b ++ c = a ++ (b ++ c)
  | ⟨x⟩, ⟨y⟩, ⟨z⟩ => congrArg String.mk (List.append_assoc x y z)

/-- A concrete clock value for instantiating theorems. -/
def now0 : NowFormats :=
  { date := "2025-01-01", compact := "20250101093000", underscored := "20250101_093000" }

/-- A second, different concrete clock value. -/
def now1 : NowFormats :=
  { date := "2025-06-30", compact := "20250630181500", underscored := "20250630_181500" }

/-- C5 counterexample: with the non-empty text "Build a login page"
and a malformed `metadata_json`, `generate_document` returns the
`except`-branch error JSON (the `json.loads` exception), not a document
built from the default names — while the same call with absent
metadata succeeds.  So a metadata input does make `generate_document`
return an error. -/
theorem C5_counterexample :
    generate_document "Build a login page" "brd" JsonInput.malformed now0 =
      GenResult.errorExternal ∧
    generate_document "Build a login page" "brd" JsonInput.empty now0 ≠
      GenResult.errorExternal := by
  refine ⟨rfl, by decide⟩

/-- C5 (amended): metadata that is absent, or parses to an object
without the `project_name`/`company_name` keys, falls back to the
defaults "Project" and "Company"; but malformed metadata (or metadata
whose parse result a dict lookup or string replace cannot be applied
to) makes `generate_document` return an error result instead of
falling back. -/
theorem C5_metadata_fallback :
    metaNames JsonInput.empty = some ("Project", "Company") ∧
    metaNames (JsonInput.parsed (JsonValue.obj [])) = some ("Project", "Company") ∧
    ∀ (text document_type : String) (now : NowFormats), text ≠ "" →
      generate_document text document_type JsonInput.malformed now =
        GenResult.errorExternal := by
  refine ⟨rfl, rfl, ?_⟩
  intro text document_type now htext
  unfold generate_document
  rw [if_neg htext]
  rfl

/-- C5 witness: the amended theorem applied at a concrete input. -/
theorem C5_witness :
    ("Add a search feature" : String) ≠ "" ∧
    generate_document "Add a search feature" "po" JsonInput.malformed now1 =
      GenResult.errorExternal :=
  ⟨by decide,
   C5_metadata_fallback.2.2 "Add a search feature" "po" now1 (by decide)⟩

/-- C8: given identical text, document type and metadata, two calls of
`generate_document` produce documents that are the same weave of
identical timestamp-independent segments, differing only in the
embedded timestamp strings. -/
theorem C8_deterministic_except_timestamp
    (text document_type : String) (metadata_json : JsonInput)
    (n1 n2 : NowFormats) (p c : String)
    (htext : text ≠ "") (hmeta : metaNames metadata_json = some (p, c)) :
    docOf (generate_document text document_type metadata_json n1) =
      some (weave (docSegs text p c document_type) (docStamps document_type n1)) ∧
    docOf (generate_document text document_type metadata_json n2) =
      some (weave (docSegs text p c document_type) (docStamps document_type n2)) := by
  have key : ∀ n : NowFormats,
      docOf (generate_document text document_type metadata_json n) =
        some (weave (docSegs text p c document_type) (docStamps document_type n)) := by
    intro n
    unfold generate_document
    rw [if_neg htext, hmeta]
    by_cases hty : document_type = "brd"
    · simp only [hty, if_pos rfl, if_true, docOf, docSegs, docStamps, weave,
        brdDoc, strAppendAssoc]
    · simp only [if_neg hty, docOf, docSegs, docStamps, weave, poDoc,
        strAppendAssoc]
  exact ⟨key n1, key n2⟩

/-- C8 witness: the theorem applied at a concrete input, once per
document type. -/
theorem C8_witness :
    ("Order ten laptops" : String) ≠ "" ∧
    metaNames JsonInput.empty = some ("Project", "Company") ∧
    (docOf (generate_document "Order ten laptops" "po" JsonInput.empty now0) =
      some (weave (docSegs "Order ten laptops" "Project" "Company" "po")
        (docStamps "po" now0)) ∧
     docOf (generate_document "Order ten laptops" "po" JsonInput.empty now1) =
      some (weave (docSegs "Order ten laptops" "Project" "Company" "po")
        (docStamps "po" now1))) :=
  ⟨by decide, rfl,
   C8_deterministic_except_timestamp "Order ten laptops" "po" JsonInput.empty
     now0 now1 "Project" "Company" (by decide) rfl⟩

/-- C9: a falsy (empty) text argument makes `generate_document` return
the "No text provided" error JSON; the error constructor carries no
document and no filename. -/
theorem C9_empty_text_error (document_type : String)
    (metadata_json : JsonInput) (now : NowFormats) :
    generate_document "" document_type metadata_json now =
      GenResult.error "No text provided" := rfl

/-- The part of the BRD template that follows the three dots appended
to the truncated text. -/
def brdAfterDots : String :=
  "\n\n2. BUSINESS OBJECTIVES\nBased on the requirements provided, the key objectives are:\n- Implement the described functionality\n- Ensure user satisfaction\n- Meet business goals\n\n3. SCOPE\nThis document covers the requirements as described in the input.\n\n4. REQUIREMENTS\n"

/-- The segment between the two text interpolations of the BRD
template starts with the three dots. -/
theorem brdLit5_split : brdLit5 = "..." ++ brdAfterDots := rfl

/-- C10: the BRD document embeds the first 500 characters of the text,
followed by "...", in the executive-summary section, and the full text
in the requirements section. -/
theorem C10_brd_sections (text : String) (metadata_json : JsonInput)
    (now : NowFormats) (p c : String)
    (htext : text ≠ "") (hmeta : metaNames metadata_json = some (p, c)) :
    docOf (generate_document text "brd" metadata_json now) =
      some (brdLit1 ++ p ++ brdLit2 ++ c ++ brdLit3 ++ now.date ++ brdLit4 ++
        pyTake text 500 ++ "..." ++ brdAfterDots ++ text ++ brdLit6) := by
  unfold generate_document
  rw [if_neg htext, hmeta]
  simp only [if_pos rfl, if_true, docOf, brdDoc, brdLit5_split, strAppendAssoc]

/-- C10 witness: the theorem applied at a concrete input whose
metadata carries a project name. -/
theorem C10_witness :
    ("Add a search feature" : String) ≠ "" ∧
    metaNames (JsonInput.parsed (JsonValue.obj
      [("project_name", JsonValue.str "ReqGen Portal")])) =
      some ("ReqGen Portal", "Company") ∧
    docOf (generate_document "Add a search feature" "brd"
        (JsonInput.parsed (JsonValue.obj
          [("project_name", JsonValue.str "ReqGen Portal")])) now0) =
      some (brdLit1 ++ "ReqGen Portal" ++ brdLit2 ++ "Company" ++ brdLit3 ++
        now0.date ++ brdLit4 ++ pyTake "Add a search feature" 500 ++ "..." ++
        brdAfterDots ++ "Add a search feature" ++ brdLit6) :=
  ⟨by decide, rfl,
   C10_brd_sections "Add a search feature"
     (JsonInput.parsed (JsonValue.obj
       [("project_name", JsonValue.str "ReqGen Portal")]))
     now0 "ReqGen Portal" "Company" (by decide) rfl⟩
